import Mathlib

/-!
Shallow embedding of `src/sxm/http.py` (`make_http_handler` / `SiriusHandler.do_GET`)
and verification of the routing / retry-recovery claims against it.

Modelling choices:
* Python `str` values (request paths, channel ids, playlist text) are `List Char`.
* Python `bytes` values are `List Nat` (one `Nat` per byte).
* The `SiriusXMClient` from `sxm.client` is not part of the sources; it is
  modelled from the spec as a per-request oracle (`Upstream`) giving the outcome
  of each upstream call.  A falsy return value (empty string / empty bytes) is
  what the spec calls `Unavailable`; a raised `SegmentRetrievalException` is the
  spec's `SessionExpired` signal.
* `do_GET` returns the ordered trace of upstream calls it performed together
  with its outcome: either an HTTP response that was sent, or a Python
  exception that propagated out of the handler uncaught.
-/

namespace SXM

/-- Python `bytes`, one natural number per byte. -/
abbrev Bytes := List Nat

/-- Python `str`, as its list of characters. -/
abbrev PyStr := List Char

/-- Outcome of one `sxm.get_segment(path)` call: either it returned a bytes
value (possibly empty, which Python treats as falsy — the spec's
`Unavailable`), or it raised `SegmentRetrievalException` (the spec's
`SessionExpired`). -/
inductive SegResult where
  | bytes (b : Bytes)
  | expired
deriving DecidableEq

/-- Modelled from the spec: the `SiriusXMClient` (module `sxm.client`, not in
the sources) exposes `get_playlist`, `get_segment`, `reset_session`,
`authenticate`, and the constant `HLS_AES_KEY`.  Each request sees it as an
oracle: `get_playlist` yields the returned playlist text (empty = unavailable),
`get_segment1`/`get_segment2` give the outcome of the first and (if any) the
retried `get_segment` call, `reset_ok`/`auth_ok` say whether `reset_session()`
and `authenticate()` complete without raising, and `hls_aes_key` is the fixed
configured key bytes. -/
structure Upstream where
  get_playlist : PyStr → PyStr
  get_segment1 : PyStr → SegResult
  get_segment2 : PyStr → SegResult
  reset_ok : Bool
  auth_ok : Bool
  hls_aes_key : Bytes

/-- One upstream client call made by the handler, recorded with its argument. -/
inductive Event where
  | get_playlist (channelId : PyStr)
  | get_segment (path : PyStr)
  | reset_session
  | authenticate
deriving DecidableEq

/-- An HTTP response as assembled by `send_response` / `send_header` /
`wfile.write`: status code, optional Content-Type header, body bytes. -/
structure HttpResponse where
  status : Nat
  contentType : Option PyStr
  body : Bytes
deriving DecidableEq

/-- A Python exception escaping `do_GET` uncaught. -/
inductive PyExc where
  | segmentRetrieval
  | resetFailure
  | authFailure
  | indexError
deriving DecidableEq

/-- Result of one `do_GET` invocation: either a response was sent, or an
exception propagated out of the handler. -/
inductive Outcome where
  | response (r : HttpResponse)
  | raised (e : PyExc)
deriving DecidableEq

/-- Whether the outcome is a sent HTTP response (no exception escaped). -/
def Outcome.isResponse : Outcome → Bool
  | .response _ => true
  | .raised _ => false

/-- Python `s.endswith(suf)` on character lists. -/
def pyEndsWith (s suf : PyStr) : Bool :=
  decide (s.drop (s.length - suf.length) = suf)

/-- Python `s.rsplit(sep, 1)`: split at the last occurrence of `sep`, if any. -/
def pyRsplit1 (sep : Char) (s : PyStr) : List PyStr :=
  if sep ∈ s then
    [((s.reverse.dropWhile (· ≠ sep)).drop 1).reverse,
     (s.reverse.takeWhile (· ≠ sep)).reverse]
  else [s]

/-- Python `s[:-5]`: everything but the last five characters. -/
def pyStripLast5 (s : PyStr) : PyStr :=
  s.take (s.length - 5)

/-- Python `bytes(data, 'utf-8')`. -/
def utf8Bytes (s : PyStr) : Bytes :=
  (String.mk s).toUTF8.toList.map (fun b => b.toNat)

/-- The `if data: 200 … else: 503` tail of the `.aac` branch. -/
def respondSegment (data : Bytes) : Outcome :=
  if data ≠ [] then
    .response ⟨200, some "audio/x-aac".toList, data⟩
  else
    .response ⟨503, none, []⟩

/-- Translation of `SiriusHandler.do_GET` from `src/sxm/http.py`, branch by branch:
`.m3u8` → playlist fetch, `.aac` → segment fetch with one
`SegmentRetrievalException`-triggered recovery (reset, authenticate, retry;
the retry itself is not wrapped in try/except, so a second
`SegmentRetrievalException` — and any failure of `reset_session` or
`authenticate` — propagates), `/key/1` → fixed key, otherwise 404.
Returns the ordered upstream-call trace and the outcome. -/
def do_GET (u : Upstream) (path : PyStr) : List Event × Outcome :=
  if pyEndsWith path ".m3u8".toList then
    match pyRsplit1 '/' path with
    | [_, lastSeg] =>
      let ch := pyStripLast5 lastSeg
      let data := u.get_playlist ch
      if data ≠ [] then
        ([.get_playlist ch], .response ⟨200, some "application/x-mpegURL".toList, utf8Bytes data⟩)
      else
        ([.get_playlist ch], .response ⟨503, none, []⟩)
    | _ => ([], .raised .indexError)
  else if pyEndsWith path ".aac".toList then
    let segment_path := path.drop 1
    match u.get_segment1 segment_path with
    | .bytes data =>
      ([.get_segment segment_path], respondSegment data)
    | .expired =>
      if u.reset_ok then
        if u.auth_ok then
          match u.get_segment2 segment_path with
          | .bytes data =>
            ([.get_segment segment_path, .reset_session, .authenticate,
              .get_segment segment_path], respondSegment data)
          | .expired =>
            ([.get_segment segment_path, .reset_session, .authenticate,
              .get_segment segment_path], .raised .segmentRetrieval)
        else
          ([.get_segment segment_path, .reset_session, .authenticate], .raised .authFailure)
      else
        ([.get_segment segment_path, .reset_session], .raised .resetFailure)
  else if pyEndsWith path "/key/1".toList then
    ([], .response ⟨200, some "text/plain".toList, u.hls_aes_key⟩)
  else
    ([], .response ⟨404, none, []⟩)

/-- The router's resource classification, read off the `if`/`elif` chain of
`do_GET` (first match wins, in source order). -/
inductive ResourceClass where
  | playlist
  | segment
  | key
  | unknown
deriving DecidableEq

/-- Classify a path exactly as the `if`/`elif` chain of `do_GET` does. -/
def classify (p : PyStr) : ResourceClass :=
  if pyEndsWith p ".m3u8".toList then .playlist
  else if pyEndsWith p ".aac".toList then .segment
  else if pyEndsWith p "/key/1".toList then .key
  else .unknown

/-- The channel id the `.m3u8` branch passes to `get_playlist`:
`self.path.rsplit('/', 1)[1][:-5]` (empty when the rsplit has no second
component, in which case `do_GET` raises `IndexError` before any call). -/
def pyChannelId (p : PyStr) : PyStr :=
  match pyRsplit1 '/' p with
  | [_, lastSeg] => pyStripLast5 lastSeg
  | _ => []

/-- The usual split on a separator character (auxiliary for the spec-side
definition of the channel identifier). -/
def splitOnChar (sep : Char) : PyStr → List PyStr
  | [] => [[]]
  | c :: rest =>
    if c = sep then [] :: splitOnChar sep rest
    else
      match splitOnChar sep rest with
      | [] => [[c]]
      | h :: t => (c :: h) :: t

/-- The last element of a list of strings (empty default). -/
def lastSeg : List PyStr → PyStr
  | [] => []
  | [x] => x
  | _ :: x :: t => lastSeg (x :: t)

/-- Definition taken from the spec's words: "the path's final `/`-separated
segment with its last 5 characters removed". -/
def specChannelId (p : PyStr) : PyStr :=
  let seg := lastSeg (splitOnChar '/' p)
  seg.take (seg.length - 5)

/-- How many `get_segment` calls a trace records. -/
def countSegmentFetches (t : List Event) : Nat :=
  t.countP (fun e => match e with | .get_segment _ => true | _ => false)

/-- A concrete upstream oracle whose calls all succeed with content. -/
def upContent : Upstream where
  get_playlist := fun _ => "#EXTM3U".toList
  get_segment1 := fun _ => .bytes [1, 2, 3]
  get_segment2 := fun _ => .bytes [4, 5]
  reset_ok := true
  auth_ok := true
  hls_aes_key := [9, 8, 7]

/-- A concrete upstream oracle: first segment fetch expires, retry succeeds. -/
def upRecover : Upstream where
  get_playlist := fun _ => "#EXTM3U".toList
  get_segment1 := fun _ => .expired
  get_segment2 := fun _ => .bytes [4, 5]
  reset_ok := true
  auth_ok := true
  hls_aes_key := [9, 8, 7]

/-- A concrete upstream oracle: both segment fetches expire. -/
def upExpireTwice : Upstream where
  get_playlist := fun _ => "#EXTM3U".toList
  get_segment1 := fun _ => .expired
  get_segment2 := fun _ => .expired
  reset_ok := true
  auth_ok := true
  hls_aes_key := [9, 8, 7]

/-- A concrete upstream oracle: segment fetch expires and `reset_session`
itself raises. -/
def upResetFail : Upstream where
  get_playlist := fun _ => "#EXTM3U".toList
  get_segment1 := fun _ => .expired
  get_segment2 := fun _ => .bytes [4, 5]
  reset_ok := false
  auth_ok := true
  hls_aes_key := [9, 8, 7]

/-- A concrete upstream oracle whose fetches return empty (falsy) data. -/
def upEmpty : Upstream where
  get_playlist := fun _ => []
  get_segment1 := fun _ => .bytes []
  get_segment2 := fun _ => .bytes []
  reset_ok := true
  auth_ok := true
  hls_aes_key := [9, 8, 7]

/-! ### Helper lemmas about the path primitives -/

/-- Characterisation: `pyEndsWith` agrees with the suffix relation. -/
theorem pyEndsWith_iff {s suf : PyStr} : pyEndsWith s suf = true ↔ ∃ t, s = t ++ suf := by
  unfold pyEndsWith
  rw [decide_eq_true_iff]
  constructor
  · intro h
    refine ⟨s.take (s.length - suf.length), ?_⟩
    conv_lhs => rw [← List.take_append_drop (s.length - suf.length) s]
    rw [h]
  · rintro ⟨t, rfl⟩
    have hlen : (t ++ suf).length - suf.length = t.length := by
      simp [List.length_append]
    rw [hlen, List.drop_left]

/-- A path ending in `.aac` does not end in `.m3u8`, so the `elif` branch of
`do_GET` is the one that fires. -/
theorem ends_aac_not_m3u8 {p : PyStr} (h : pyEndsWith p ".aac".toList = true) :
    pyEndsWith p ".m3u8".toList = false := by
  rw [Bool.eq_false_iff]
  intro hm
  obtain ⟨t1, h1⟩ := pyEndsWith_iff.mp h
  obtain ⟨t2, h2⟩ := pyEndsWith_iff.mp hm
  have hc : p.reverse.head? = some 'c' := by
    rw [h1, List.reverse_append]
    rfl
  have h8 : p.reverse.head? = some '8' := by
    rw [h2, List.reverse_append]
    rfl
  rw [hc] at h8
  simp at h8

/-- On a list starting with a block satisfying the predicate up to the first
failing element. -/
theorem takeWhile_all_append {q : Char → Bool} {as bs : List Char} {b : Char}
    (h : ∀ a ∈ as, q a = true) (hb : q b = false) :
    (as ++ b :: bs).takeWhile q = as := by
  induction as with
  | nil => simp [List.takeWhile_cons, hb]
  | cons a t ih =>
    have ha := h a (by simp)
    simp [List.takeWhile_cons, ha, ih (fun x hx => h x (by simp [hx]))]

/-- Likewise, `dropWhile` drops the block satisfying the predicate up to the first
failing element. -/
theorem dropWhile_all_append {q : Char → Bool} {as bs : List Char} {b : Char}
    (h : ∀ a ∈ as, q a = true) (hb : q b = false) :
    (as ++ b :: bs).dropWhile q = b :: bs := by
  induction as with
  | nil => simp [List.dropWhile_cons, hb]
  | cons a t ih =>
    have ha := h a (by simp)
    simp [List.dropWhile_cons, ha, ih (fun x hx => h x (by simp [hx]))]

/-- Every list containing `sep` splits around the last occurrence of `sep`. -/
theorem exists_last_sep_split {sep : Char} {p : PyStr} (h : sep ∈ p) :
    ∃ xs ys, p = xs ++ sep :: ys ∧ sep ∉ ys := by
  induction p with
  | nil => cases h
  | cons c t ih =>
    by_cases ht : sep ∈ t
    · obtain ⟨xs, ys, rfl, hys⟩ := ih ht
      exact ⟨c :: xs, ys, rfl, hys⟩
    · have hc : c = sep := by
        rcases List.mem_cons.mp h with h' | h'
        · exact h'.symm
        · exact absurd h' ht
      exact ⟨[], t, by rw [hc]; rfl, ht⟩

/-- Value of `pyRsplit1` on a list split around its last separator occurrence. -/
theorem pyRsplit1_append {sep : Char} {xs ys : PyStr} (hys : sep ∉ ys) :
    pyRsplit1 sep (xs ++ sep :: ys) = [xs, ys] := by
  have hmem : sep ∈ xs ++ sep :: ys := by simp
  have hrev : (xs ++ sep :: ys).reverse = ys.reverse ++ sep :: xs.reverse := by
    rw [List.reverse_append, List.reverse_cons, List.append_assoc, List.singleton_append]
  have hall : ∀ a ∈ ys.reverse, (decide (a ≠ sep)) = true := by
    intro a ha
    have : a ∈ ys := List.mem_reverse.mp ha
    exact decide_eq_true (fun he => hys (he ▸ this))
  have hsep : (decide (sep ≠ sep)) = false := by simp
  unfold pyRsplit1
  rw [if_pos hmem, hrev, takeWhile_all_append hall hsep, dropWhile_all_append hall hsep]
  simp

/-- The function `splitOnChar` never returns the empty list. -/
theorem splitOnChar_ne_nil (sep : Char) (l : PyStr) : splitOnChar sep l ≠ [] := by
  cases l with
  | nil => simp [splitOnChar]
  | cons c t =>
    by_cases hc : c = sep
    · simp [splitOnChar, hc]
    · cases hsp : splitOnChar sep t <;> simp [splitOnChar, hc, hsp]

/-- On a separator-free list, `splitOnChar` is the singleton of that list. -/
theorem splitOnChar_of_not_mem {sep : Char} {l : PyStr} (h : sep ∉ l) :
    splitOnChar sep l = [l] := by
  induction l with
  | nil => rfl
  | cons c t ih =>
    have hc : ¬ c = sep := fun he => h (by simp [he])
    have ht : sep ∉ t := fun hm => h (List.mem_cons_of_mem _ hm)
    simp [splitOnChar, hc, ih ht]

/-- On a list containing the separator, `splitOnChar` has at least two
components. -/
theorem splitOnChar_mem_cons {sep : Char} {l : PyStr} (h : sep ∈ l) :
    ∃ a b t, splitOnChar sep l = a :: b :: t := by
  induction l with
  | nil => cases h
  | cons c r ih =>
    by_cases hc : c = sep
    · rcases hr : splitOnChar sep r with _ | ⟨h1, t1⟩
      · exact absurd hr (splitOnChar_ne_nil sep r)
      · exact ⟨[], h1, t1, by simp [splitOnChar, hc, hr]⟩
    · have hr' : sep ∈ r := by
        rcases List.mem_cons.mp h with h' | h'
        · exact absurd h'.symm hc
        · exact h'
      obtain ⟨a, b, t, hab⟩ := ih hr'
      exact ⟨c :: a, b, t, by simp [splitOnChar, hc, hab]⟩

/-- The final component of `splitOnChar` over a list split at its last
separator occurrence is exactly the part after that separator. -/
theorem lastSeg_splitOnChar {sep : Char} {xs ys : PyStr} (hys : sep ∉ ys) :
    lastSeg (splitOnChar sep (xs ++ sep :: ys)) = ys := by
  induction xs with
  | nil =>
    simp [splitOnChar, splitOnChar_of_not_mem hys, lastSeg]
  | cons c xs ih =>
    rw [List.cons_append]
    by_cases hc : c = sep
    · subst hc
      rcases hr : splitOnChar c (xs ++ c :: ys) with _ | ⟨h1, t1⟩
      · exact absurd hr (splitOnChar_ne_nil _ _)
      · have hstep : splitOnChar c (c :: (xs ++ c :: ys)) = [] :: splitOnChar c (xs ++ c :: ys) := by
          simp [splitOnChar]
        rw [hstep, hr]
        rw [hr] at ih
        simpa [lastSeg] using ih
    · obtain ⟨a, b, t, hab⟩ := splitOnChar_mem_cons (show sep ∈ xs ++ sep :: ys by simp)
      have hstep : splitOnChar sep (c :: (xs ++ sep :: ys)) = (c :: a) :: b :: t := by
        simp [splitOnChar, hc, hab]
      rw [hstep]
      rw [hab] at ih
      simpa [lastSeg] using ih

/-- The code's channel extraction agrees with the spec's description on every
path containing a `/`. -/
theorem pyChannelId_eq_specChannelId {p : PyStr} (h : '/' ∈ p) :
    pyChannelId p = specChannelId p := by
  obtain ⟨xs, ys, rfl, hys⟩ := exists_last_sep_split h
  rw [pyChannelId, pyRsplit1_append hys, specChannelId, lastSeg_splitOnChar hys]
  rfl

/-- The `.m3u8` branch of `do_GET`, for paths that do contain a slash. -/
theorem do_GET_m3u8 (u : Upstream) {p : PyStr}
    (hm : pyEndsWith p ".m3u8".toList = true) (hs : '/' ∈ p) :
    do_GET u p =
      if u.get_playlist (pyChannelId p) ≠ [] then
        ([.get_playlist (pyChannelId p)],
          .response ⟨200, some "application/x-mpegURL".toList,
            utf8Bytes (u.get_playlist (pyChannelId p))⟩)
      else
        ([.get_playlist (pyChannelId p)], .response ⟨503, none, []⟩) := by
  obtain ⟨xs, ys, rfl, hys⟩ := exists_last_sep_split hs
  have hch : pyChannelId (xs ++ '/' :: ys) = pyStripLast5 ys := by
    rw [pyChannelId, pyRsplit1_append hys]
  rw [do_GET]
  rw [if_pos hm, pyRsplit1_append hys, hch]

/-- Character-list form of the `.m3u8` literal. -/
theorem m3u8_toList : ".m3u8".toList = ['.', 'm', '3', 'u', '8'] := rfl

/-- Character-list form of the `.aac` literal. -/
theorem aac_toList : ".aac".toList = ['.', 'a', 'a', 'c'] := rfl

/-- Character-list form of the `/key/1` literal. -/
theorem key1_toList : "/key/1".toList = ['/', 'k', 'e', 'y', '/', '1'] := rfl

/-! ### The claims -/

/-- Claim C1: for a GET whose path ends in `.aac`, if the first segment fetch
raises `SegmentRetrievalException` (session expiry) and the retried fetch
returns content, the handler answers 200 `audio/x-aac` with the retried bytes,
and the trace is exactly fetch, `reset_session`, `authenticate`, fetch — so
reset and authenticate each run exactly once, in that order, between the two
fetches. -/
theorem claim1_recovery_success (u : Upstream) (p : PyStr) (d : Bytes)
    (ha : pyEndsWith p ".aac".toList = true)
    (h1 : u.get_segment1 (p.drop 1) = .expired)
    (hr : u.reset_ok = true) (hau : u.auth_ok = true)
    (h2 : u.get_segment2 (p.drop 1) = .bytes d) (hd : d ≠ []) :
    do_GET u p =
      ([Event.get_segment (p.drop 1), Event.reset_session, Event.authenticate,
        Event.get_segment (p.drop 1)],
        Outcome.response ⟨200, some "audio/x-aac".toList, d⟩) := by
  have hm := ends_aac_not_m3u8 ha
  simp only [List.drop_one] at h1 h2
  simp at ha hm
  simp [do_GET, hm, ha, h1, hr, hau, h2, respondSegment, hd]

/-- Concrete instance of `claim1_recovery_success`. -/
theorem claim1_recovery_success_witness :
    do_GET upRecover "/a/b.aac".toList
      = ([Event.get_segment ("/a/b.aac".toList.drop 1), Event.reset_session,
          Event.authenticate, Event.get_segment ("/a/b.aac".toList.drop 1)],
          Outcome.response ⟨200, some "audio/x-aac".toList, [4, 5]⟩)
    ∧ "/a/b.aac".toList.drop 1 = "a/b.aac".toList :=
  ⟨claim1_recovery_success upRecover _ [4, 5] (by decide) (by decide) (by decide)
      (by decide) (by decide) (by decide), by decide⟩

/-- Claim C2 counterexample: when both segment fetches raise
`SegmentRetrievalException`, the handler does not respond 503 — the second
exception propagates out of `do_GET` and no response at all is sent. -/
theorem claim2_counterexample :
    (do_GET upExpireTwice "/a/b.aac".toList).2 = Outcome.raised PyExc.segmentRetrieval
    ∧ ((do_GET upExpireTwice "/a/b.aac".toList).2).isResponse = false := by
  decide

/-- Claim C2 (amended): for a GET whose path ends in `.aac`, if both the first
and the retried segment fetch raise `SegmentRetrievalException`, no third
fetch is made (the trace holds exactly two `get_segment` calls), but instead
of a 503 response the second exception propagates out of the handler
uncaught. -/
theorem claim2_double_expiry (u : Upstream) (p : PyStr)
    (ha : pyEndsWith p ".aac".toList = true)
    (h1 : u.get_segment1 (p.drop 1) = .expired)
    (hr : u.reset_ok = true) (hau : u.auth_ok = true)
    (h2 : u.get_segment2 (p.drop 1) = .expired) :
    do_GET u p =
      ([Event.get_segment (p.drop 1), Event.reset_session, Event.authenticate,
        Event.get_segment (p.drop 1)], Outcome.raised PyExc.segmentRetrieval)
    ∧ countSegmentFetches (do_GET u p).1 = 2 := by
  have hm := ends_aac_not_m3u8 ha
  have heq : do_GET u p =
      ([Event.get_segment (p.drop 1), Event.reset_session, Event.authenticate,
        Event.get_segment (p.drop 1)], Outcome.raised PyExc.segmentRetrieval) := by
    simp only [List.drop_one] at h1 h2
    simp at ha hm
    simp [do_GET, hm, ha, h1, hr, hau, h2]
  refine ⟨heq, ?_⟩
  rw [heq]
  rfl

/-- Concrete instance of `claim2_double_expiry`. -/
theorem claim2_double_expiry_witness :
    do_GET upExpireTwice "/a/b.aac".toList
      = ([Event.get_segment ("/a/b.aac".toList.drop 1), Event.reset_session,
          Event.authenticate, Event.get_segment ("/a/b.aac".toList.drop 1)],
          Outcome.raised PyExc.segmentRetrieval)
    ∧ countSegmentFetches (do_GET upExpireTwice "/a/b.aac".toList).1 = 2 :=
  claim2_double_expiry upExpireTwice _ (by decide) (by decide) (by decide) (by decide)
    (by decide)

/-- Claim C3 counterexample: when `reset_session` itself fails during segment
recovery, the handler does not translate the failure into a 503 — the
exception propagates out of `do_GET` and no response is sent. -/
theorem claim3_counterexample :
    (do_GET upResetFail "/a/b.aac".toList).2 = Outcome.raised PyExc.resetFailure
    ∧ ((do_GET upResetFail "/a/b.aac".toList).2).isResponse = false := by
  decide

/-- Claim C3 (amended): the handler catches only the first
`SegmentRetrievalException` of a segment request.  A failure of
`reset_session` or `authenticate` during recovery, and a second
`SegmentRetrievalException` on the retry, all propagate as uncaught
exceptions (no 503 is sent); when recovery completes and the retried fetch
returns bytes, a response is sent. -/
theorem claim3_exception_propagation (u : Upstream) (p : PyStr)
    (ha : pyEndsWith p ".aac".toList = true)
    (h1 : u.get_segment1 (p.drop 1) = .expired) :
    (u.reset_ok = false → (do_GET u p).2 = Outcome.raised PyExc.resetFailure)
    ∧ (u.reset_ok = true → u.auth_ok = false →
        (do_GET u p).2 = Outcome.raised PyExc.authFailure)
    ∧ (u.reset_ok = true → u.auth_ok = true → u.get_segment2 (p.drop 1) = .expired →
        (do_GET u p).2 = Outcome.raised PyExc.segmentRetrieval)
    ∧ (∀ d, u.reset_ok = true → u.auth_ok = true → u.get_segment2 (p.drop 1) = .bytes d →
        ((do_GET u p).2).isResponse = true) := by
  have hm := ends_aac_not_m3u8 ha
  simp only [List.drop_one] at h1
  simp at ha hm
  refine ⟨fun hr => ?_, fun hr hau => ?_, fun hr hau h2 => ?_, fun d hr hau h2 => ?_⟩
  · simp [do_GET, hm, ha, h1, hr]
  · simp [do_GET, hm, ha, h1, hr, hau]
  · simp only [List.drop_one] at h2
    simp [do_GET, hm, ha, h1, hr, hau, h2]
  · simp only [List.drop_one] at h2
    by_cases hd : d = [] <;>
      simp [do_GET, hm, ha, h1, hr, hau, h2, respondSegment, hd, Outcome.isResponse]

/-- Concrete instance of `claim3_exception_propagation`. -/
theorem claim3_exception_propagation_witness :
    (do_GET upResetFail "/a/b.aac".toList).2 = Outcome.raised PyExc.resetFailure :=
  (claim3_exception_propagation upResetFail "/a/b.aac".toList (by decide) (by decide)).1
    (by decide)

/-- Claim C4: each path is classified into exactly one of playlist, segment,
key, unknown by first-match-wins suffix tests in the order `.m3u8`, `.aac`,
`/key/1`, unknown; and every unknown path is answered 404 with empty body
(and no upstream call). -/
theorem claim4_classification (u : Upstream) (p : PyStr) :
    (classify p = .playlist ↔ pyEndsWith p ".m3u8".toList = true)
    ∧ (classify p = .segment ↔
        (pyEndsWith p ".m3u8".toList = false ∧ pyEndsWith p ".aac".toList = true))
    ∧ (classify p = .key ↔
        (pyEndsWith p ".m3u8".toList = false ∧ pyEndsWith p ".aac".toList = false
          ∧ pyEndsWith p "/key/1".toList = true))
    ∧ (classify p = .unknown ↔
        (pyEndsWith p ".m3u8".toList = false ∧ pyEndsWith p ".aac".toList = false
          ∧ pyEndsWith p "/key/1".toList = false))
    ∧ (classify p = .unknown → do_GET u p = ([], Outcome.response ⟨404, none, []⟩)) := by
  cases h1 : pyEndsWith p ".m3u8".toList <;>
    cases h2 : pyEndsWith p ".aac".toList <;>
      cases h3 : pyEndsWith p "/key/1".toList <;>
        simp_all [classify, do_GET, m3u8_toList, aac_toList, key1_toList]

/-- Concrete instance of `claim4_classification`: `/favicon.ico` is unknown
and gets 404 with empty body. -/
theorem claim4_classification_witness :
    do_GET upContent "/favicon.ico".toList = ([], Outcome.response ⟨404, none, []⟩) :=
  (claim4_classification upContent "/favicon.ico".toList).2.2.2.2 (by decide)

/-- Claim C5: for every path beginning with `/` and ending in `.m3u8`, the
channel identifier passed to `get_playlist` (the single upstream call of the
request) is the path's final `/`-separated segment with its last five
characters removed, as the spec words it (`specChannelId`). -/
theorem claim5_channel_extraction (u : Upstream) (p : PyStr)
    (hhead : p.head? = some '/') (hm : pyEndsWith p ".m3u8".toList = true) :
    (do_GET u p).1 = [Event.get_playlist (specChannelId p)] := by
  have hs : '/' ∈ p := by
    cases p with
    | nil => simp at hhead
    | cons c t =>
      simp only [List.head?_cons, Option.some.injEq] at hhead
      simp [hhead]
  rw [do_GET_m3u8 u hm hs, pyChannelId_eq_specChannelId hs]
  by_cases hd : u.get_playlist (specChannelId p) = [] <;> simp [hd]

/-- Concrete instance of `claim5_channel_extraction`:
`/channel/HITS1.m3u8` yields channel id `HITS1`. -/
theorem claim5_channel_extraction_witness :
    (do_GET upContent "/channel/HITS1.m3u8".toList).1
      = [Event.get_playlist (specChannelId "/channel/HITS1.m3u8".toList)]
    ∧ specChannelId "/channel/HITS1.m3u8".toList = "HITS1".toList :=
  ⟨claim5_channel_extraction upContent _ (by decide) (by decide), by decide⟩

/-- Claim C6: for every path ending in `.aac`, the segment path passed to the
(first) `get_segment` call is the request path with its leading character
removed. -/
theorem claim6_segment_path (u : Upstream) (p : PyStr)
    (ha : pyEndsWith p ".aac".toList = true) :
    (do_GET u p).1.head? = some (Event.get_segment (p.drop 1)) := by
  have hm := ends_aac_not_m3u8 ha
  simp at ha hm
  cases h1 : u.get_segment1 (p.tail) with
  | bytes d => simp [do_GET, hm, ha, h1]
  | expired =>
    cases hr : u.reset_ok <;> cases hau : u.auth_ok <;>
      cases h2 : u.get_segment2 (p.tail) <;>
        simp [do_GET, hm, ha, h1, hr, hau, h2]

/-- Concrete instance of `claim6_segment_path`:
`/audio/123/456.aac` yields upstream path `audio/123/456.aac`. -/
theorem claim6_segment_path_witness :
    (do_GET upContent "/audio/123/456.aac".toList).1.head?
      = some (Event.get_segment ("/audio/123/456.aac".toList.drop 1))
    ∧ "/audio/123/456.aac".toList.drop 1 = "audio/123/456.aac".toList :=
  ⟨claim6_segment_path upContent _ (by decide), by decide⟩

/-- Claim C7: every request classified as key is answered 200 `text/plain`
with exactly the configured key bytes and an empty upstream-call trace (no
client call, hence side-effect-free); and the response does not depend on any
upstream state beyond the fixed key, so repeated identical key requests give
byte-identical responses. -/
theorem claim7_key (u v : Upstream) (p : PyStr) (hk : classify p = .key) :
    do_GET u p = ([], Outcome.response ⟨200, some "text/plain".toList, u.hls_aes_key⟩)
    ∧ (u.hls_aes_key = v.hls_aes_key → do_GET u p = do_GET v p) := by
  have h : pyEndsWith p ".m3u8".toList = false ∧ pyEndsWith p ".aac".toList = false
      ∧ pyEndsWith p "/key/1".toList = true := by
    cases h1 : pyEndsWith p ".m3u8".toList <;>
      cases h2 : pyEndsWith p ".aac".toList <;>
        cases h3 : pyEndsWith p "/key/1".toList <;>
          simp_all [classify]
  obtain ⟨h1, h2, h3⟩ := h
  simp at h1 h2 h3
  constructor
  · simp [do_GET, h1, h2, h3]
  · intro hkey
    simp [do_GET, h1, h2, h3, hkey]

/-- Concrete instance of `claim7_key`. -/
theorem claim7_key_witness :
    do_GET upContent "/key/1".toList
      = ([], Outcome.response ⟨200, some "text/plain".toList, upContent.hls_aes_key⟩) :=
  (claim7_key upContent upContent "/key/1".toList (by decide)).1

/-- Claim C8: a `.m3u8` request (on a path containing `/`) whose playlist
fetch comes back empty is answered 503 with no body, and the trace is the
single `get_playlist` call: no second fetch, no `reset_session`, no
`authenticate`. -/
theorem claim8_playlist_unavailable (u : Upstream) (p : PyStr)
    (hs : '/' ∈ p) (hm : pyEndsWith p ".m3u8".toList = true)
    (hun : u.get_playlist (pyChannelId p) = []) :
    do_GET u p = ([Event.get_playlist (pyChannelId p)], Outcome.response ⟨503, none, []⟩) := by
  rw [do_GET_m3u8 u hm hs]
  simp [hun]

/-- Concrete instance of `claim8_playlist_unavailable`. -/
theorem claim8_playlist_unavailable_witness :
    do_GET upEmpty "/c.m3u8".toList
      = ([Event.get_playlist (pyChannelId "/c.m3u8".toList)], Outcome.response ⟨503, none, []⟩)
    ∧ pyChannelId "/c.m3u8".toList = "c".toList :=
  ⟨claim8_playlist_unavailable upEmpty _ (by decide) (by decide) (by decide), by decide⟩

/-- Claim C9 counterexample: on path `/.m3u8` (empty stripped channel id) the
handler does not respond 404; it calls `get_playlist` with the empty
identifier and answers from its result (here 503). -/
theorem claim9_counterexample :
    do_GET upEmpty "/.m3u8".toList
      = ([Event.get_playlist []], Outcome.response ⟨503, none, []⟩)
    ∧ Outcome.response ⟨503, none, []⟩ ≠ Outcome.response ⟨404, none, []⟩ := by
  decide

/-- Claim C9 (amended): for every `.m3u8` path (containing a `/`) whose
stripped channel identifier is empty, the handler does not respond 404 and
raises no internal fault: it calls `get_playlist` with the empty identifier
— that single call is the whole trace — and responds 200 or 503 according to
the result. -/
theorem claim9_empty_channel (u : Upstream) (p : PyStr)
    (hs : '/' ∈ p) (hm : pyEndsWith p ".m3u8".toList = true)
    (hemp : pyChannelId p = []) :
    (do_GET u p).1 = [Event.get_playlist []]
    ∧ ∃ r, (do_GET u p).2 = Outcome.response r
        ∧ (r.status = 200 ∨ r.status = 503) ∧ r.status ≠ 404 := by
  rw [do_GET_m3u8 u hm hs, hemp]
  by_cases hd : u.get_playlist [] = []
  · simp [hd]
  · simp [hd]

/-- Concrete instance of `claim9_empty_channel`. -/
theorem claim9_empty_channel_witness :
    (do_GET upEmpty "/.m3u8".toList).1 = [Event.get_playlist []]
    ∧ ∃ r, (do_GET upEmpty "/.m3u8".toList).2 = Outcome.response r
        ∧ (r.status = 200 ∨ r.status = 503) ∧ r.status ≠ 404 :=
  claim9_empty_channel upEmpty _ (by decide) (by decide) (by decide)

/-- Claim C10: the 200 branch of the playlist and segment handlers fires only
on non-empty data — an empty playlist string or empty segment bytes (on the
first attempt or on the retry) is answered 503 with empty body, exactly the
Unavailable response. -/
theorem claim10_empty_data_503 (u : Upstream) (p : PyStr) :
    ('/' ∈ p → pyEndsWith p ".m3u8".toList = true →
        u.get_playlist (pyChannelId p) = [] →
        (do_GET u p).2 = Outcome.response ⟨503, none, []⟩)
    ∧ (pyEndsWith p ".aac".toList = true → u.get_segment1 (p.drop 1) = .bytes [] →
        (do_GET u p).2 = Outcome.response ⟨503, none, []⟩)
    ∧ (pyEndsWith p ".aac".toList = true → u.get_segment1 (p.drop 1) = .expired →
        u.reset_ok = true → u.auth_ok = true → u.get_segment2 (p.drop 1) = .bytes [] →
        (do_GET u p).2 = Outcome.response ⟨503, none, []⟩) := by
  refine ⟨fun hs hm hun => ?_, fun ha h1 => ?_, fun ha h1 hr hau h2 => ?_⟩
  · rw [do_GET_m3u8 u hm hs]
    simp [hun]
  · have hm := ends_aac_not_m3u8 ha
    simp only [List.drop_one] at h1
    simp at ha hm
    simp [do_GET, hm, ha, h1, respondSegment]
  · have hm := ends_aac_not_m3u8 ha
    simp only [List.drop_one] at h1 h2
    simp at ha hm
    simp [do_GET, hm, ha, h1, hr, hau, h2, respondSegment]

/-- Concrete instance of `claim10_empty_data_503`. -/
theorem claim10_empty_data_503_witness :
    (do_GET upEmpty "/c.m3u8".toList).2 = Outcome.response ⟨503, none, []⟩
    ∧ (do_GET upEmpty "/a.aac".toList).2 = Outcome.response ⟨503, none, []⟩ :=
  ⟨(claim10_empty_data_503 upEmpty "/c.m3u8".toList).1 (by decide) (by decide) (by decide),
   (claim10_empty_data_503 upEmpty "/a.aac".toList).2.1 (by decide) (by decide)⟩

end SXM
